import Mathlib

/-!
Verification of the aztfexport-helper export orchestration.

This file gives a shallow embedding of the parts of the repository that the
properties below are about, chiefly `src/src/export_manager.py`
(class `ExportManager`) and the pipeline scripts
`scripts/prepare-subscription-matrix.py` / `scripts/find-subscription-spn.py`.

Modelling conventions:
* Python strings are Lean `String`s; the string operations the code uses
  (`lower`, `strip`-free paths, `in` substring tests, `split`, `join`,
  `replace`, slicing) are re-implemented over `String.data` character lists so
  that every definition evaluates by kernel reduction.
* The external `aztfexport` subprocess, the filesystem evidence it leaves and
  the best-effort numeric regex extraction of `_parse_aztfexport_output` are
  abstracted into an input value (`ProcOutcome` / `RegexCounts`): everything
  the code does *with* those observations is embedded faithfully.
* Python `dict` insertion is modelled by an association list with
  replace-in-place-or-append semantics (`dictInsert`), preserving key order.
-/

namespace AztfexportHelper

/-! ## Python string primitives -/

/-- Python `str.lower()` on the ASCII fragment (the code only lowercases
resource-group names, patterns and tool output). -/
def pyLower (s : String) : String :=
  String.mk (s.data.map Char.toLower)

/-- Whether `needle` occurs as a contiguous sublist at the head of `hay`
(helper for the Python `in` substring test). -/
def headMatches : List Char → List Char → Bool
  | [], _ => true
  | _ :: _, [] => false
  | a :: as, b :: bs => a == b && headMatches as bs

/-- Python `needle in hay` on strings: `needle` occurs contiguously in `hay`. -/
def containsSubChars (needle hay : List Char) : Bool :=
  match hay with
  | [] => headMatches needle []
  | _ :: rest => headMatches needle hay || containsSubChars needle rest

/-- Python `needle in hay` lifted to `String`. -/
def containsSub (hay needle : String) : Bool :=
  containsSubChars needle.data hay.data

/-- Python `'\n'.split` helper over character lists: `"".split` gives `[""]`. -/
def splitLinesChars : List Char → List (List Char)
  | [] => [[]]
  | c :: rest =>
    if c == '\n' then [] :: splitLinesChars rest
    else
      match splitLinesChars rest with
      | [] => [[c]]
      | l :: ls => (c :: l) :: ls

/-- Python `output.split('\n')`. -/
def splitLines (s : String) : List String :=
  (splitLinesChars s.data).map String.mk

/-- Python `sep.join(parts)`. -/
def pyJoin (sep : String) : List String → String
  | [] => ""
  | [a] => a
  | a :: rest => a ++ sep ++ pyJoin sep rest

/-- Python `s.replace("'", "''")`: every single quote doubled
(`_build_resource_graph_query`, line 267 of `export_manager.py`). -/
def escapeSingleQuotes (s : String) : String :=
  String.mk (s.data.flatMap (fun c => if c == '\'' then ['\'', '\''] else [c]))

/-! ## fnmatch: the glob matching used for exclusion patterns

`_matches_exclude_pattern` and the discovery filters call
`fnmatch.fnmatchcase` on lowercased strings.  The model below follows the
semantics of `fnmatch.translate`: `*` matches any (possibly empty) sequence,
`?` any single character, `[seq]` a character set with ranges, `[!seq]` its
complement; a leading `!` negates, a first `]` is a literal member, and an
unterminated `[` is an ordinary character. -/

/-- One token of a compiled glob pattern. -/
inductive GlobTok where
  | star
  | anyChar
  | lit (c : Char)
  | cls (neg : Bool) (chars : List Char)
deriving Repr, DecidableEq

/-- Split a character-class body at its closing `]`: `some (body, rest)`,
or `none` when the class is unterminated. -/
def splitAtRBrack : List Char → Option (List Char × List Char)
  | [] => none
  | c :: rest =>
    if c == ']' then some ([], rest)
    else (splitAtRBrack rest).map (fun p => (c :: p.1, p.2))

/-- Tokenize a glob pattern.  Structural recursion on a character budget
(each step consumes at least one character, so `pattern.length` suffices). -/
def tokenizeGlobAux : Nat → List Char → List GlobTok
  | 0, _ => []
  | _, [] => []
  | fuel + 1, c :: rest =>
    if c == '*' then GlobTok.star :: tokenizeGlobAux fuel rest
    else if c == '?' then GlobTok.anyChar :: tokenizeGlobAux fuel rest
    else if c == '[' then
      let (neg, afterNeg) :=
        match rest with
        | '!' :: t => (true, t)
        | _ => (false, rest)
      match afterNeg with
      | ']' :: t =>
        match splitAtRBrack t with
        | some (body, rest2) => GlobTok.cls neg (']' :: body) :: tokenizeGlobAux fuel rest2
        | none => GlobTok.lit '[' :: tokenizeGlobAux fuel rest
      | _ =>
        match splitAtRBrack afterNeg with
        | some (body, rest2) => GlobTok.cls neg body :: tokenizeGlobAux fuel rest2
        | none => GlobTok.lit '[' :: tokenizeGlobAux fuel rest
    else GlobTok.lit c :: tokenizeGlobAux fuel rest

/-- Tokenize a glob pattern string. -/
def tokenizeGlob (pattern : List Char) : List GlobTok :=
  tokenizeGlobAux pattern.length pattern

/-- Character-class membership, with `a-z` ranges; a `-` that has no
right endpoint is a literal member. -/
def charInClass : List Char → Char → Bool
  | [], _ => false
  | lo :: '-' :: hi :: rest, c =>
    (decide (lo ≤ c) && decide (c ≤ hi)) || charInClass rest c
  | x :: rest, c => x == c || charInClass rest c

/-- Match a token list against a string; `star` tries every split of the
remaining input (the `.*` of `fnmatch.translate`). -/
def globMatchToks : List GlobTok → List Char → Bool
  | [], s => s.isEmpty
  | GlobTok.star :: ts, s =>
    (List.range (s.length + 1)).any (fun k => globMatchToks ts (s.drop k))
  | GlobTok.anyChar :: ts, s =>
    match s with
    | [] => false
    | _ :: cs => globMatchToks ts cs
  | GlobTok.lit c :: ts, s =>
    match s with
    | [] => false
    | d :: cs => c == d && globMatchToks ts cs
  | GlobTok.cls neg chars :: ts, s =>
    match s with
    | [] => false
    | d :: cs => (charInClass chars d != neg) && globMatchToks ts cs

/-- `fnmatch.fnmatchcase(name, pattern)`: case-sensitive glob match of the
whole string. -/
def fnmatchcase (s pattern : String) : Bool :=
  globMatchToks (tokenizeGlob pattern.data) s.data

/-! ## Resource-group exclusion matching

`ExportManager._matches_exclude_pattern` (lines 67-78) and the inline filter
of `_get_resource_groups` / `AzureClient.get_resource_groups`. -/

/-- Lines 67-78: a name is excluded when some pattern equals it
case-insensitively or matches it as a case-insensitive glob; patterns are
tried in order with early exit. -/
def matches_exclude_pattern (rg_name : String) (exclude_patterns : List String) : Bool :=
  let rg_name_lower := pyLower rg_name
  exclude_patterns.any (fun pattern =>
    let pattern_lower := pyLower pattern
    rg_name_lower == pattern_lower || fnmatchcase rg_name_lower pattern_lower)

/-- The first-match-wins provenance recorded by `_get_resource_groups`
(lines 192-204) and `AzureClient.get_resource_groups` (lines 60-69): the
first pattern that matches, kept for audit logging. -/
def firstMatchingPattern (rg_name : String) (exclude_patterns : List String) : Option String :=
  exclude_patterns.find? (fun pattern =>
    pyLower rg_name == pyLower pattern || fnmatchcase (pyLower rg_name) (pyLower pattern))

/-! ## Query building (`_build_resource_graph_query`, lines 253-270) -/

/-- Python truthiness of an optional string configuration value
(`None` and `""` are falsy). -/
def pyTruthyOptStr : Option String → Bool
  | none => false
  | some s => s != ""

/-- Lines 253-270: a configured custom query wins outright; otherwise each
excluded type becomes `type != '<escaped>'` and the conditions are joined
with `" and "`; no excluded types gives the empty query. -/
def build_resource_graph_query (exclude_resource_types : List String)
    (custom_query : Option String) : String :=
  if pyTruthyOptStr custom_query then custom_query.getD ""
  else if exclude_resource_types.isEmpty then ""
  else
    pyJoin " and " (exclude_resource_types.map (fun resource_type =>
      "type != '" ++ escapeSingleQuotes resource_type ++ "'"))

/-- Lines 387-390: the resource-group scope ANDed onto the predicate
(standalone when the predicate is empty); an empty name leaves the predicate
unchanged. -/
def queryWithResourceGroup (query : String) (rg_name : String) : String :=
  if rg_name != "" then
    if query != "" then query ++ " and resourceGroup == '" ++ rg_name ++ "'"
    else "resourceGroup == '" ++ rg_name ++ "'"
  else query

/-! ## Export command construction (`_export_resource_group`, lines 366-420) -/

/-- The `aztfexport` section of the configuration consumed by the command
builder. -/
structure AztfexportConfig where
  exclude_resource_types : List String
  query : Option String
  resource_types : List String
  exclude_resources : List String
  additional_flags : List String
deriving Repr, DecidableEq

/-- Which `aztfexport` subcommand the builder chose. -/
inductive ExportMode where
  | queryMode
  | resourceGroupMode
deriving Repr, DecidableEq

/-- Lines 398-420: the `resource-group` invocation; `--resource-type` and
`--exclude` flags per configured list, additional flags, then the
resource-group name as the trailing positional argument. -/
def buildRgCmd (cfg : AztfexportConfig) (subscription_id output_dir rg_name : String) :
    List String :=
  ["aztfexport", "resource-group",
   "--subscription-id", subscription_id,
   "--output-dir", output_dir,
   "--non-interactive", "--plain-ui"]
  ++ cfg.resource_types.flatMap (fun rt => ["--resource-type", rt])
  ++ cfg.exclude_resources.flatMap (fun er => ["--exclude", er])
  ++ cfg.additional_flags
  ++ [rg_name]

/-- Lines 366-420: query mode is tried when excluded types or a truthy custom
query are configured, and used when the built predicate is non-empty;
otherwise the builder falls back to resource-group mode.  `rg_name` is the
already-stripped `str(resource_group).strip()` of line 364. -/
def buildExportCmd (cfg : AztfexportConfig) (subscription_id output_dir rg_name : String) :
    ExportMode × List String :=
  let use_query_mode := !cfg.exclude_resource_types.isEmpty || pyTruthyOptStr cfg.query
  if use_query_mode then
    let query := build_resource_graph_query cfg.exclude_resource_types cfg.query
    if query != "" then
      (ExportMode.queryMode,
       ["aztfexport", "query",
        "--subscription-id", subscription_id,
        "--output-dir", output_dir,
        "--non-interactive", "--plain-ui"]
       ++ cfg.additional_flags
       ++ [queryWithResourceGroup query rg_name])
    else (ExportMode.resourceGroupMode, buildRgCmd cfg subscription_id output_dir rg_name)
  else (ExportMode.resourceGroupMode, buildRgCmd cfg subscription_id output_dir rg_name)

/-! ## Export executor (`_export_resource_group`, lines 328-572)

The subprocess launch, its merged de-duplicated transcript, the exit code,
the filesystem evidence (`*.tf` artifact files under the output directory)
and the numeric values the best-effort regexes of `_parse_aztfexport_output`
extract (lines 288-312) are the executor's observations of the outside
world; they are bundled into `ProcOutcome` below.  Everything the code
computes *from* those observations is embedded. -/

/-- The per-resource-group result dictionary (`result` of
`_export_resource_group`, lines 352-360). -/
structure ExportResult where
  success : Bool
  total_resources : Nat
  exported_resources : Nat
  failed_resources : Nat
  skipped_resources : Nat
  error_type : Option String
  error_details : List String
deriving Repr, DecidableEq

/-- The all-false / all-zero initialisation of lines 352-360. -/
def initExportResult : ExportResult :=
  { success := false
    total_resources := 0
    exported_resources := 0
    failed_resources := 0
    skipped_resources := 0
    error_type := none
    error_details := [] }

/-- The numbers the regex scan of `_parse_aztfexport_output` (lines 288-308)
pulled out of the free-text transcript; an observation of the tool's output
format, taken as input here. -/
structure RegexCounts where
  total_resources : Nat
  exported_resources : Nat
  failed_resources : Nat
  skipped_resources : Nat
deriving Repr, DecidableEq

/-- What `_parse_aztfexport_output` returns (the `stats` dictionary): no
`success` key, so merging it into `result` never touches `success`. -/
structure ParsedStats where
  total_resources : Nat
  exported_resources : Nat
  failed_resources : Nat
  skipped_resources : Nat
  error_type : Option String
  error_details : List String
deriving Repr, DecidableEq

/-- The fixed keyword set of line 315. -/
def permission_keywords : List String :=
  ["permission", "unauthorized", "access denied", "forbidden", "authorization", "role", "rbac"]

/-- Lines 314-319: `permission` when the lowered output contains any
permission keyword, else `other` when it contains `error` or `failed`,
else no classification. -/
def classifyErrorType (output : String) : Option String :=
  let output_lower := pyLower output
  if permission_keywords.any (fun keyword => containsSub output_lower keyword) then
    some "permission"
  else if containsSub output_lower "error" || containsSub output_lower "failed" then
    some "other"
  else none

/-- Lines 321-324: the last 5 output lines mentioning an error keyword
(the empty list is kept when there are none). -/
def extractErrorDetails (output : String) : List String :=
  let error_lines := (splitLines output).filter (fun line =>
    ["error", "failed", "denied", "unauthorized"].any (fun kw =>
      containsSub (pyLower line) kw))
  if error_lines.isEmpty then []
  else error_lines.drop (error_lines.length - 5)

/-- `_parse_aztfexport_output` (lines 272-326) given the regex observations:
line 311-312 estimates a missing total from the other counters, then the
error classification and error-detail extraction run on the raw text. -/
def parse_aztfexport_output (counts : RegexCounts) (output : String) : ParsedStats :=
  let total :=
    if counts.total_resources == 0 && decide (0 < counts.exported_resources) then
      counts.exported_resources + counts.failed_resources + counts.skipped_resources
    else counts.total_resources
  { total_resources := total
    exported_resources := counts.exported_resources
    failed_resources := counts.failed_resources
    skipped_resources := counts.skipped_resources
    error_type := classifyErrorType output
    error_details := extractErrorDetails output }

/-- The observable behaviour of one `aztfexport` run (lines 446-473 plus the
artifact inspection of lines 500-502): either the process ran to completion
with an exit code, a transcript, the regex observations and the number of
`*.tf` files found directly in / recursively under the output directory, or
one of the three exception paths of lines 549-572 fired. -/
inductive ProcOutcome where
  | completed (exitCode : Int) (output : String) (counts : RegexCounts)
      (tfDirect : Nat) (tfRecursive : Nat)
  | timedOut
  | toolNotFound
  | raised (msg : String)
deriving Repr, DecidableEq

/-- `_export_resource_group`, lines 422-572: merge the parsed statistics into
the result, then decide success from the exit code AND the artifact files
(recursive glob first, the direct glob as fallback, lines 499-535); when the
count parse came back empty on a success, estimate resource counts from the
artifact-file count (lines 511-515); the three `except` clauses become the
three non-`completed` branches. -/
def export_resource_group (behavior : ProcOutcome) : ExportResult :=
  match behavior with
  | ProcOutcome.completed exitCode output counts tfDirect tfRecursive =>
    let stats := parse_aztfexport_output counts output
    let result : ExportResult :=
      { initExportResult with
        total_resources := stats.total_resources
        exported_resources := stats.exported_resources
        failed_resources := stats.failed_resources
        skipped_resources := stats.skipped_resources
        error_type := stats.error_type
        error_details := stats.error_details }
    if exitCode == 0 then
      let tf_files := if tfRecursive != 0 then tfRecursive else tfDirect
      if tf_files != 0 then
        let result := { result with success := true }
        if result.exported_resources == 0 then
          { result with exported_resources := tf_files, total_resources := tf_files }
        else result
      else { result with success := false }
    else { result with success := false }
  | ProcOutcome.timedOut =>
    { initExportResult with
      success := false
      error_type := some "timeout"
      error_details := ["Export timeout: exceeded 1 hour"] }
  | ProcOutcome.toolNotFound =>
    { initExportResult with
      success := false
      error_type := some "tool_not_found"
      error_details := ["aztfexport not found in PATH"] }
  | ProcOutcome.raised msg =>
    { initExportResult with
      success := false
      error_type := some "exception"
      error_details := [msg] }

/-! ## Aggregation (`export_subscription`, lines 574-662) -/

/-- `_sanitize_name` (lines 718-722): non-alphanumeric characters other than
`_` and `-` become `_`, then lowercase. -/
def sanitize_name (name : String) : String :=
  pyLower (String.mk (name.data.map (fun c =>
    if c.isAlpha || c.isDigit || c == '_' || c == '-' then c else '_')))

/-- Python `dict` assignment `d[k] = v` on an insertion-ordered mapping:
replace in place when the key exists, else append. -/
def dictInsert {α : Type} (d : List (String × α)) (k : String) (v : α) :
    List (String × α) :=
  match d with
  | [] => [(k, v)]
  | (k0, v0) :: rest =>
    if k0 == k then (k0, v) :: rest else (k0, v0) :: dictInsert rest k v

/-- The per-resource-group record stored into `results['resource_groups']`
(lines 634-643). -/
structure RgRecord where
  path : String
  status : String
  total_resources : Nat
  exported_resources : Nat
  failed_resources : Nat
  skipped_resources : Nat
  error_type : Option String
  error_details : List String
deriving Repr, DecidableEq

/-- A discovered subscription (`{id, name}` as built by
`get_subscriptions_from_azure`, lines 141-144). -/
structure Subscription where
  id : String
  name : String
deriving Repr, DecidableEq

/-- The per-subscription result dictionary (lines 594-606). -/
structure SubscriptionResult where
  subscription_id : String
  subscription_name : String
  resource_groups : List (String × RgRecord)
  total_rgs : Nat
  successful_rgs : Nat
  failed_rgs : Nat
  total_resources : Nat
  exported_resources : Nat
  failed_resources : Nat
  skipped_resources : Nat
deriving Repr, DecidableEq

/-- Lines 626-655: fold one resource group's `ExportResult` into the
subscription accumulator (the `isinstance` dict branch; the legacy boolean
branch of lines 644-650 is unreachable since `_export_resource_group`
always returns the dictionary). -/
def applyRgResult (acc : SubscriptionResult) (rg : String) (rg_dir : String)
    (rg_result : ExportResult) : SubscriptionResult :=
  let record : RgRecord :=
    { path := rg_dir
      status := if rg_result.success then "success" else "failed"
      total_resources := rg_result.total_resources
      exported_resources := rg_result.exported_resources
      failed_resources := rg_result.failed_resources
      skipped_resources := rg_result.skipped_resources
      error_type := rg_result.error_type
      error_details := rg_result.error_details }
  let acc1 :=
    { acc with
      total_resources := acc.total_resources + rg_result.total_resources
      exported_resources := acc.exported_resources + rg_result.exported_resources
      failed_resources := acc.failed_resources + rg_result.failed_resources
      skipped_resources := acc.skipped_resources + rg_result.skipped_resources
      resource_groups := dictInsert acc.resource_groups rg record }
  if rg_result.success then { acc1 with successful_rgs := acc1.successful_rgs + 1 }
  else { acc1 with failed_rgs := acc1.failed_rgs + 1 }

/-- The initial `results` dictionary of lines 594-606: `total_rgs` is the
number of discovered (non-excluded) resource groups. -/
def initSubscriptionResult (sub : Subscription) (resource_groups : List String) :
    SubscriptionResult :=
  { subscription_id := sub.id
    subscription_name := sub.name
    resource_groups := []
    total_rgs := resource_groups.length
    successful_rgs := 0
    failed_rgs := 0
    total_resources := 0
    exported_resources := 0
    failed_resources := 0
    skipped_resources := 0 }

/-- `export_subscription` (lines 574-662): fold every discovered resource
group's outcome into the accumulator.  `behavior` maps each resource group
to its subprocess observation; `resource_groups` is what discovery returned
after exclusion filtering.  An empty discovery list returns the initial
record unchanged (lines 608-610). -/
def export_subscription (behavior : String → ProcOutcome) (base_dir : String)
    (create_rg_folders : Bool) (sub : Subscription)
    (resource_groups : List String) : SubscriptionResult :=
  let sub_dir := base_dir ++ "/" ++ sanitize_name sub.name
  resource_groups.foldl
    (fun acc rg =>
      let rg_dir := if create_rg_folders then sub_dir ++ "/" ++ sanitize_name rg else sub_dir
      applyRgResult acc rg rg_dir (export_resource_group (behavior rg)))
    (initSubscriptionResult sub resource_groups)

/-! ## Run-level aggregation (`export_all_subscriptions`, lines 664-716) -/

/-- The raw `exclude_subscriptions` configuration value: either the legacy
flat list, or the `{prod: [...], non-prod: [...]}` map whose entries may be
missing or null, or any other YAML value (treated as no exclusions,
lines 683-691). -/
inductive ExcludeSubsConfig where
  | asList (l : List String)
  | asDict (prod : Option (List String)) (nonProd : Option (List String))
  | otherYaml
deriving Repr, DecidableEq

/-- Lines 683-691: flatten the `prod` and `non-prod` lists (missing or null
entries contribute nothing); a flat list is used directly; anything else
yields no exclusions. -/
def flattenExcludeSubscriptions : ExcludeSubsConfig → List String
  | ExcludeSubsConfig.asList l => l
  | ExcludeSubsConfig.asDict prod nonProd => prod.getD [] ++ nonProd.getD []
  | ExcludeSubsConfig.otherYaml => []

/-- Line 700: exclusion by exact membership of the subscription's id or name
in the flattened list. -/
def isExcludedSubscription (sub : Subscription) (exclude_subscriptions : List String) : Bool :=
  exclude_subscriptions.contains sub.id || exclude_subscriptions.contains sub.name

/-- `export_all_subscriptions` (lines 664-716): skip excluded subscriptions
entirely, export the rest and key the summary by subscription id.  `rgsOf`
is the discovery result per subscription; `behavior` the subprocess
observation per (subscription, resource group).  The `except` branch of
lines 708-714 is unreachable here because `export_subscription` is total. -/
def export_all_subscriptions (behavior : String → String → ProcOutcome)
    (rgsOf : String → List String) (base_dir : String) (create_rg_folders : Bool)
    (subscriptions : List Subscription) (exclude_raw : ExcludeSubsConfig) :
    List (String × SubscriptionResult) :=
  let exclude_subscriptions := flattenExcludeSubscriptions exclude_raw
  subscriptions.foldl
    (fun all_results sub =>
      if isExcludedSubscription sub exclude_subscriptions then all_results
      else
        dictInsert all_results sub.id
          (export_subscription (behavior sub.id) base_dir create_rg_folders sub
            (rgsOf sub.id)))
    []

/-! ## Pipeline-variable resolution

`resolve_pipeline_variable` (lines 19-33 of
`scripts/prepare-subscription-matrix.py`, identically lines 17-31 of
`scripts/find-subscription-spn.py`). -/

/-- A YAML/JSON value as the script sees it: a string, or any non-string
value (identified by a tag so distinct non-strings stay distinct). -/
inductive PipelineValue where
  | strVal (s : String)
  | nonStr (tag : Nat)
deriving Repr, DecidableEq

/-- Python `value.startswith('$(') and value.endswith(')')`. -/
def isPlaceholder (value : String) : Bool :=
  (match value.data with
   | '$' :: '(' :: _ => true
   | _ => false)
  && (value.data.getLast? == some ')')

/-- Python `value[2:-1]`. -/
def placeholderName (value : String) : String :=
  String.mk ((value.data.drop 2).dropLast)

/-- `resolve_pipeline_variable`: non-strings pass through; a `$(NAME)`
placeholder resolves to the environment value when that is truthy
(`if env_value:`), otherwise the placeholder is returned unchanged.
`env` is the process environment (`os.getenv`). -/
def resolve_pipeline_variable (env : String → Option String) :
    PipelineValue → PipelineValue
  | PipelineValue.nonStr tag => PipelineValue.nonStr tag
  | PipelineValue.strVal value =>
    if isPlaceholder value then
      match env (placeholderName value) with
      | some env_value =>
        if env_value != "" then PipelineValue.strVal env_value
        else PipelineValue.strVal value
      | none => PipelineValue.strVal value
    else PipelineValue.strVal value

/-! ## Helper lemmas -/

/-- On the success-evidence path the parsed statistics never touch
`error_type`: the completed branch always reports the output
classification. -/
theorem export_rg_completed_error_type (exitCode : Int) (output : String)
    (counts : RegexCounts) (tfDirect tfRecursive : Nat) :
    (export_resource_group
        (ProcOutcome.completed exitCode output counts tfDirect tfRecursive)).error_type
      = classifyErrorType output := by
  simp only [export_resource_group, parse_aztfexport_output]
  repeat' split
  all_goals rfl

/-- The output classification takes one of three values. -/
theorem classifyErrorType_cases (output : String) :
    classifyErrorType output = none ∨ classifyErrorType output = some "permission"
      ∨ classifyErrorType output = some "other" := by
  simp only [classifyErrorType]
  split
  · exact Or.inr (Or.inl rfl)
  · split
    · exact Or.inr (Or.inr rfl)
    · exact Or.inl rfl

/-! ## Claim theorems -/

/-- C1: on a run whose subprocess exits with code 0, the returned outcome has
`success = true` exactly when at least one `.tf` artifact file exists under
the output directory (the recursive glob, falling back to the direct one);
in particular exit code 0 with zero artifact files yields `success = false`. -/
theorem C1_success_iff_artifacts (exitCode : Int) (output : String)
    (counts : RegexCounts) (tfDirect tfRecursive : Nat) (h : exitCode = 0) :
    ((export_resource_group
        (ProcOutcome.completed exitCode output counts tfDirect tfRecursive)).success = true
      ↔ (0 < tfRecursive ∨ 0 < tfDirect)) := by
  subst h
  simp only [export_resource_group]
  by_cases hR : tfRecursive = 0 <;> by_cases hD : tfDirect = 0 <;>
    simp [hR, hD] <;> split <;> simp <;> omega

/-- Witness for C1 at the concrete input the claim singles out: exit code 0
and zero artifact files give `success = false`. -/
theorem C1_success_iff_artifacts_witness :
    ((export_resource_group
        (ProcOutcome.completed 0 "" ⟨0, 0, 0, 0⟩ 0 0)).success = true
      ↔ (0 < 0 ∨ 0 < 0)) :=
  C1_success_iff_artifacts 0 "" ⟨0, 0, 0, 0⟩ 0 0 rfl

/-- C2: every exception path of the per-resource-group export returns a
well-formed result with `success = false` — `timeout` on subprocess timeout,
`tool_not_found` on a missing executable, and the structured `exception`
record on any other exception — instead of propagating. -/
theorem C2_exception_paths_structured (msg : String) :
    ((export_resource_group ProcOutcome.timedOut).success = false
      ∧ (export_resource_group ProcOutcome.timedOut).error_type = some "timeout")
    ∧ ((export_resource_group ProcOutcome.toolNotFound).success = false
      ∧ (export_resource_group ProcOutcome.toolNotFound).error_type = some "tool_not_found")
    ∧ ((export_resource_group (ProcOutcome.raised msg)).success = false
      ∧ (export_resource_group (ProcOutcome.raised msg)).error_details = [msg]) :=
  ⟨⟨rfl, rfl⟩, ⟨rfl, rfl⟩, rfl, rfl⟩

/-- C4: with `exclude_resource_types = ["Microsoft.Foo/bar"]`, no custom
query and resource group `rg1`, the built query-mode predicate — and the
trailing positional argument of the built command — equal exactly
`type != 'Microsoft.Foo/bar' and resourceGroup == 'rg1'`. -/
theorem C4_query_mode_predicate :
    queryWithResourceGroup (build_resource_graph_query ["Microsoft.Foo/bar"] none) "rg1"
      = "type != 'Microsoft.Foo/bar' and resourceGroup == 'rg1'"
    ∧ (buildExportCmd ⟨["Microsoft.Foo/bar"], none, [], [], []⟩ "sub1" "out" "rg1").2.getLast?
      = some "type != 'Microsoft.Foo/bar' and resourceGroup == 'rg1'" := by
  exact ⟨by decide, by decide⟩

/-- C7 (counterexample): the generic exception handler of lines 567-572
returns `error_type = 'exception'`, a value outside the claimed enum
`{none, permission, timeout, tool_not_found, other}`. -/
theorem C7_error_type_outside_claimed_enum :
    (export_resource_group (ProcOutcome.raised "boom")).error_type = some "exception"
    ∧ (export_resource_group (ProcOutcome.raised "boom")).error_type
        ∉ ([none, some "permission", some "timeout", some "tool_not_found", some "other"]
            : List (Option String)) :=
  ⟨rfl, by decide⟩

/-- C7 (amended): every outcome's `error_type` lies in
`{none, permission, other, timeout, tool_not_found, exception}`. -/
theorem C7_error_type_enumeration (behavior : ProcOutcome) :
    (export_resource_group behavior).error_type
      ∈ ([none, some "permission", some "other", some "timeout", some "tool_not_found",
          some "exception"] : List (Option String)) := by
  cases behavior with
  | completed exitCode output counts tfDirect tfRecursive =>
    rw [export_rg_completed_error_type]
    rcases classifyErrorType_cases output with h | h | h <;> simp [h]
  | timedOut => simp [export_resource_group]
  | toolNotFound => simp [export_resource_group]
  | raised msg => simp [export_resource_group]

/-- C8 (counterexample): with the environment variable `FOO` present but
empty, the placeholder is returned unchanged rather than mapped to `FOO`'s
value `""` — the truthiness test `if env_value:` treats an empty value as
unset. -/
theorem C8_empty_env_value_not_substituted :
    resolve_pipeline_variable (fun name => if name == "FOO" then some "" else none)
        (PipelineValue.strVal "$(FOO)")
      = PipelineValue.strVal "$(FOO)"
    ∧ PipelineValue.strVal "$(FOO)" ≠ PipelineValue.strVal "" :=
  ⟨by decide, by decide⟩

/-- C8 (amended): `$(FOO)` resolves to the value of `FOO` when `FOO` is set
to a non-empty value, is returned unchanged when `FOO` is unset or set to
the empty string, and non-string inputs pass through unchanged. -/
theorem C8_resolve_pipeline_variable (env : String → Option String) (v : String) (tag : Nat) :
    (env "FOO" = some v → v ≠ "" →
      resolve_pipeline_variable env (PipelineValue.strVal "$(FOO)") = PipelineValue.strVal v)
    ∧ ((env "FOO" = none ∨ env "FOO" = some "") →
      resolve_pipeline_variable env (PipelineValue.strVal "$(FOO)")
        = PipelineValue.strVal "$(FOO)")
    ∧ resolve_pipeline_variable env (PipelineValue.nonStr tag) = PipelineValue.nonStr tag := by
  have hp : isPlaceholder "$(FOO)" = true := by decide
  have hn : placeholderName "$(FOO)" = "FOO" := by decide
  refine ⟨?_, ?_, rfl⟩
  · intro h hne
    simp only [resolve_pipeline_variable, hp, if_true, hn, h]
    simp [bne_iff_ne.mpr hne]
  · intro h
    rcases h with h | h <;> simp [resolve_pipeline_variable, hp, hn, h]

/-- Folding one outcome increments exactly one of the success/failure
counters and leaves `total_rgs` alone. -/
theorem applyRgResult_counts (acc : SubscriptionResult) (rg rg_dir : String)
    (r : ExportResult) :
    (applyRgResult acc rg rg_dir r).successful_rgs + (applyRgResult acc rg rg_dir r).failed_rgs
        = acc.successful_rgs + acc.failed_rgs + 1
    ∧ (applyRgResult acc rg rg_dir r).total_rgs = acc.total_rgs := by
  simp only [applyRgResult]
  cases hs : r.success <;> simp [hs] <;> omega

/-- Invariant of the per-subscription fold: each step adds one to
`successful_rgs + failed_rgs` and preserves `total_rgs`. -/
theorem foldl_counts_general (step : SubscriptionResult → String → SubscriptionResult)
    (hstep : ∀ a rg, (step a rg).successful_rgs + (step a rg).failed_rgs
        = a.successful_rgs + a.failed_rgs + 1 ∧ (step a rg).total_rgs = a.total_rgs) :
    ∀ (l : List String) (acc : SubscriptionResult),
      ((l.foldl step acc).successful_rgs + (l.foldl step acc).failed_rgs
        = acc.successful_rgs + acc.failed_rgs + l.length)
      ∧ (l.foldl step acc).total_rgs = acc.total_rgs
  | [], acc => by simp
  | rg :: rest, acc => by
    simp only [List.foldl_cons, List.length_cons]
    have h1 := hstep acc rg
    have h2 := foldl_counts_general step hstep rest (step acc rg)
    exact ⟨by omega, by rw [h2.2, h1.2]⟩

/-- C3: after `export_subscription` returns,
`successful_rgs + failed_rgs = total_rgs`, and `total_rgs` is the number of
discovered (non-excluded) resource groups. -/
theorem C3_rg_count_partition (behavior : String → ProcOutcome) (base_dir : String)
    (create_rg_folders : Bool) (sub : Subscription) (resource_groups : List String) :
    (export_subscription behavior base_dir create_rg_folders sub resource_groups).successful_rgs
        + (export_subscription behavior base_dir create_rg_folders sub resource_groups).failed_rgs
      = (export_subscription behavior base_dir create_rg_folders sub resource_groups).total_rgs
    ∧ (export_subscription behavior base_dir create_rg_folders sub resource_groups).total_rgs
      = resource_groups.length := by
  have key := foldl_counts_general
    (fun acc rg =>
      applyRgResult acc rg
        (if create_rg_folders then
          base_dir ++ "/" ++ sanitize_name sub.name ++ "/" ++ sanitize_name rg
         else base_dir ++ "/" ++ sanitize_name sub.name)
        (export_resource_group (behavior rg)))
    (fun a rg => applyRgResult_counts a rg _ _)
    resource_groups (initSubscriptionResult sub resource_groups)
  have e : export_subscription behavior base_dir create_rg_folders sub resource_groups
      = List.foldl
          (fun acc rg =>
            applyRgResult acc rg
              (if create_rg_folders then
                base_dir ++ "/" ++ sanitize_name sub.name ++ "/" ++ sanitize_name rg
               else base_dir ++ "/" ++ sanitize_name sub.name)
              (export_resource_group (behavior rg)))
          (initSubscriptionResult sub resource_groups) resource_groups := rfl
  rw [e]
  refine ⟨?_, ?_⟩
  · rw [key.1, key.2]
    simp [initSubscriptionResult]
  · rw [key.2]
    rfl

/-- The exclusion match only looks at the lowercased name and patterns. -/
theorem matches_eq_any_lower (n : String) (P : List String) :
    matches_exclude_pattern n P
      = (P.map pyLower).any (fun pl => pyLower n == pl || fnmatchcase (pyLower n) pl) := by
  simp [matches_exclude_pattern, List.any_map, Function.comp_def]

/-- C5: exclusion matching is case-insensitive (it only depends on the
lowercased name and patterns), the include/exclude outcome is invariant
under permuting the pattern list (order only picks which matching pattern is
reported), and a name is excluded exactly when some pattern equals it
case-insensitively or matches it as a case-insensitive glob. -/
theorem C5_exclusion_matching_properties :
    (∀ (n n' : String) (P P' : List String),
        pyLower n = pyLower n' → P.map pyLower = P'.map pyLower →
        matches_exclude_pattern n P = matches_exclude_pattern n' P')
    ∧ (∀ (n : String) (P P' : List String), P.Perm P' →
        matches_exclude_pattern n P = matches_exclude_pattern n P')
    ∧ (∀ (n : String) (P : List String),
        (firstMatchingPattern n P).isSome = matches_exclude_pattern n P)
    ∧ (∀ (n : String) (P : List String),
        matches_exclude_pattern n P = true
          ↔ ∃ p ∈ P, pyLower n = pyLower p ∨ fnmatchcase (pyLower n) (pyLower p) = true) := by
  refine ⟨?_, ?_, ?_, ?_⟩
  · intro n n' P P' hn hP
    rw [matches_eq_any_lower, matches_eq_any_lower, hn, hP]
  · intro n P P' h
    rw [Bool.eq_iff_iff]
    simp only [matches_exclude_pattern, List.any_eq_true]
    exact ⟨fun ⟨p, hp, hm⟩ => ⟨p, h.mem_iff.mp hp, hm⟩,
      fun ⟨p, hp, hm⟩ => ⟨p, h.mem_iff.mpr hp, hm⟩⟩
  · intro n P
    rw [Bool.eq_iff_iff]
    simp [firstMatchingPattern, matches_exclude_pattern, List.find?_isSome,
      List.any_eq_true]
  · intro n P
    simp [matches_exclude_pattern, List.any_eq_true]

/-- The join of a non-empty list is at least as long as its first element. -/
theorem pyJoin_cons_length_le (sep a : String) (l : List String) :
    a.length ≤ (pyJoin sep (a :: l)).length := by
  cases l with
  | nil => simp [pyJoin]
  | cons b rest =>
    simp only [pyJoin, String.length_append]
    omega

/-- When query mode is selectable the built predicate is never empty: a
truthy custom query is non-empty, and each excluded type contributes a
non-empty condition. -/
theorem build_query_ne_empty (ts : List String) (cq : Option String)
    (h : ts ≠ [] ∨ pyTruthyOptStr cq = true) :
    build_resource_graph_query ts cq ≠ "" := by
  by_cases hcq : pyTruthyOptStr cq = true
  · match cq, hcq with
    | some s, hcq =>
      simp only [build_resource_graph_query, hcq, if_true, Option.getD_some]
      exact bne_iff_ne.mp hcq
  · have hcq' : pyTruthyOptStr cq = false := by
      cases hb : pyTruthyOptStr cq
      · rfl
      · exact absurd hb hcq
    rcases h with hts | hct
    · match ts, hts with
      | t :: rest, _ =>
        simp only [build_resource_graph_query, hcq', Bool.false_eq_true, if_false,
          List.isEmpty_cons, List.map_cons]
        intro contra
        have hlen := pyJoin_cons_length_le " and "
          ("type != '" ++ escapeSingleQuotes t ++ "'")
          (rest.map (fun resource_type => "type != '" ++ escapeSingleQuotes resource_type ++ "'"))
        rw [contra] at hlen
        have hq : ("'" : String).length = 1 := rfl
        have h0 : ("" : String).length = 0 := rfl
        rw [h0, String.length_append, hq] at hlen
        omega
    · exact absurd hct hcq

/-- The query-mode guard of line 368 as a proposition. -/
theorem use_query_mode_iff (cfg : AztfexportConfig) :
    (!cfg.exclude_resource_types.isEmpty || pyTruthyOptStr cfg.query) = true
      ↔ (cfg.exclude_resource_types ≠ [] ∨ pyTruthyOptStr cfg.query = true) := by
  simp [List.isEmpty_iff]

/-- C6: query mode is chosen exactly when excluded resource types or a
truthy custom query are configured; a custom query overrides type-based
predicate construction entirely; and an empty built predicate falls back to
resource-group mode, whose command ends with the resource-group name as the
trailing positional argument. -/
theorem C6_mode_selection (cfg : AztfexportConfig) (sid od rg : String) :
    ((buildExportCmd cfg sid od rg).1 = ExportMode.queryMode
        ↔ (cfg.exclude_resource_types ≠ [] ∨ pyTruthyOptStr cfg.query = true))
    ∧ (pyTruthyOptStr cfg.query = true →
        build_resource_graph_query cfg.exclude_resource_types cfg.query = cfg.query.getD "")
    ∧ (build_resource_graph_query cfg.exclude_resource_types cfg.query = "" →
        buildExportCmd cfg sid od rg = (ExportMode.resourceGroupMode, buildRgCmd cfg sid od rg)
        ∧ (buildRgCmd cfg sid od rg).getLast? = some rg) := by
  refine ⟨?_, ?_, ?_⟩
  · constructor
    · intro hm
      by_cases hu : (!cfg.exclude_resource_types.isEmpty || pyTruthyOptStr cfg.query) = true
      · exact (use_query_mode_iff cfg).mp hu
      · exfalso
        simp only [buildExportCmd] at hm
        rw [if_neg hu] at hm
        exact ExportMode.noConfusion hm
    · intro hr
      have hu := (use_query_mode_iff cfg).mpr hr
      have hq := build_query_ne_empty cfg.exclude_resource_types cfg.query hr
      simp only [buildExportCmd]
      rw [if_pos hu, if_pos (bne_iff_ne.mpr hq)]
  · intro h
    simp [build_resource_graph_query, h]
  · intro hq0
    have hnu : ¬((!cfg.exclude_resource_types.isEmpty || pyTruthyOptStr cfg.query) = true) := by
      intro hu
      exact build_query_ne_empty cfg.exclude_resource_types cfg.query
        ((use_query_mode_iff cfg).mp hu) hq0
    refine ⟨?_, List.getLast?_concat _⟩
    simp only [buildExportCmd]
    rw [if_neg hnu]

/-- Inserting key `k` leaves the keys of a mapping unchanged except for
possibly adding `k`. -/
theorem mem_keys_dictInsert {α : Type} (d : List (String × α)) (k sid : String) (v : α) :
    sid ∈ (dictInsert d k v).map Prod.fst ↔ sid = k ∨ sid ∈ d.map Prod.fst := by
  induction d with
  | nil => simp [dictInsert]
  | cons hd tl ih =>
    obtain ⟨k0, v0⟩ := hd
    simp only [dictInsert]
    by_cases hk : (k0 == k) = true
    · have hk' : k0 = k := beq_iff_eq.mp hk
      subst hk'
      rw [if_pos hk]
      simp
    · rw [if_neg hk]
      simp [ih]
      tauto

/-- Invariant of the run-level fold: a key the exclusion list contains is
never inserted into the summary. -/
theorem keys_export_all_aux (behavior : String → String → ProcOutcome)
    (rgsOf : String → List String) (base_dir : String) (create_rg_folders : Bool)
    (excl : List String) :
    ∀ (subs : List Subscription) (acc : List (String × SubscriptionResult)) (sid : String),
      sid ∈ excl → sid ∉ acc.map Prod.fst →
      sid ∉ (subs.foldl
        (fun all_results sub =>
          if isExcludedSubscription sub excl then all_results
          else
            dictInsert all_results sub.id
              (export_subscription (behavior sub.id) base_dir create_rg_folders sub
                (rgsOf sub.id)))
        acc).map Prod.fst
  | [], _, _, _, ha => by simpa using ha
  | sub :: rest, acc, sid, hs, ha => by
    simp only [List.foldl_cons]
    by_cases he : isExcludedSubscription sub excl = true
    · rw [if_pos he]
      exact keys_export_all_aux behavior rgsOf base_dir create_rg_folders excl rest acc sid hs ha
    · rw [if_neg he]
      apply keys_export_all_aux behavior rgsOf base_dir create_rg_folders excl rest _ sid hs
      rw [mem_keys_dictInsert]
      rintro (hid | hmem)
      · have hnid : ¬(excl.contains sub.id = true) := by
          intro hc
          apply he
          simp only [isExcludedSubscription, hc, Bool.true_or]
        subst hid
        exact hnid (List.elem_iff.mpr hs)
      · exact ha hmem

/-- C9: a subscription whose id is in the flattened `exclude_subscriptions`
list is absent entirely from the run summary (no key is created for it). -/
theorem C9_excluded_subscription_absent (behavior : String → String → ProcOutcome)
    (rgsOf : String → List String) (base_dir : String) (create_rg_folders : Bool)
    (subscriptions : List Subscription) (exclude_raw : ExcludeSubsConfig) (sid : String)
    (h : sid ∈ flattenExcludeSubscriptions exclude_raw) :
    sid ∉ (export_all_subscriptions behavior rgsOf base_dir create_rg_folders
        subscriptions exclude_raw).map Prod.fst := by
  simp only [export_all_subscriptions]
  exact keys_export_all_aux behavior rgsOf base_dir create_rg_folders
    (flattenExcludeSubscriptions exclude_raw) subscriptions [] sid h (by simp)

/-- Witness for C9 on the claim's own scenario: subscriptions `s1` and `s2`
with `exclude_subscriptions = ["s2"]` give a summary whose only key is
`s1`, `s2` being absent entirely. -/
theorem C9_excluded_subscription_absent_witness :
    "s2" ∈ flattenExcludeSubscriptions (ExcludeSubsConfig.asList ["s2"])
    ∧ "s2" ∉ (export_all_subscriptions (fun _ _ => ProcOutcome.toolNotFound) (fun _ => [])
          "./exports" true
          [{ id := "s1", name := "Sub One" }, { id := "s2", name := "Sub Two" }]
          (ExcludeSubsConfig.asList ["s2"])).map Prod.fst
    ∧ (export_all_subscriptions (fun _ _ => ProcOutcome.toolNotFound) (fun _ => [])
          "./exports" true
          [{ id := "s1", name := "Sub One" }, { id := "s2", name := "Sub Two" }]
          (ExcludeSubsConfig.asList ["s2"])).map Prod.fst = ["s1"] :=
  ⟨by decide,
    C9_excluded_subscription_absent (fun _ _ => ProcOutcome.toolNotFound) (fun _ => [])
      "./exports" true
      [{ id := "s1", name := "Sub One" }, { id := "s2", name := "Sub Two" }]
      (ExcludeSubsConfig.asList ["s2"]) "s2" (by decide),
    by decide⟩

/-- C10: subscription-level exclusion is exact, case-sensitive membership of
the id or name in the flattened list; a pattern that differs from both in
any character — case included — never excludes, so no wildcard or case
normalisation is applied. -/
theorem C10_subscription_exclusion_exact (sub : Subscription) (excl : List String) :
    (isExcludedSubscription sub excl = true ↔ sub.id ∈ excl ∨ sub.name ∈ excl)
    ∧ ((∀ p ∈ excl, p ≠ sub.id ∧ p ≠ sub.name) → isExcludedSubscription sub excl = false) := by
  have hiff : isExcludedSubscription sub excl = true ↔ sub.id ∈ excl ∨ sub.name ∈ excl := by
    simp [isExcludedSubscription, List.elem_iff]
  refine ⟨hiff, fun hall => ?_⟩
  rw [Bool.eq_false_iff]
  intro htrue
  rcases hiff.mp htrue with h | h
  · exact (hall _ h).1 rfl
  · exact (hall _ h).2 rfl

/-- Witness for C10: patterns differing only in case (`S2`), a wildcard
(`s*`) and a lowercased name (`sub two`) exclude nothing at subscription
level, although the resource-group matcher would match them. -/
theorem C10_subscription_exclusion_exact_witness :
    isExcludedSubscription { id := "s2", name := "Sub Two" } ["S2", "s*", "sub two"] = false
    ∧ matches_exclude_pattern "s2" ["S2", "s*", "sub two"] = true
    ∧ matches_exclude_pattern "Sub Two" ["S2", "s*", "sub two"] = true :=
  ⟨(C10_subscription_exclusion_exact { id := "s2", name := "Sub Two" }
      ["S2", "s*", "sub two"]).2 (by decide),
    by decide, by decide⟩

end AztfexportHelper
